import Mathlib

/-!
Verification of the ibicus tutorial notebooks: the `LinearScaling`
running-window debiaser defined in notebook 04, the default-settings
resolution it relies on, the orchestrator contract, and the unit-conversion
step of the data-preparation notebook.

Numeric series are modelled as lists of rationals; the `np.mean` aggregate
becomes `mean` below.  The debiaser's fallible `apply_on_window` returns
`Except String` where the Python code raises `ValueError`.
-/

/-- Climate variables imported from `ibicus.variables` in notebook 04
(`from ibicus.variables import tas, pr, hurs, psl`). -/
inductive Variable where
  | tas
  | pr
  | hurs
  | psl
deriving DecidableEq

/-- Embedding of `np.mean` on a one-dimensional series: sum divided by
length (over ℚ; the empty series gives the junk value 0). -/
def mean (xs : List ℚ) : ℚ := xs.sum / xs.length

/-- Embedding of the `LinearScaling` attrs class of notebook 04: a plain
record with a `variable` field (inherited from `RunningWindowDebiaser`,
renamed `variable_` since `variable` is a Lean keyword) and a
`delta_type` string field defaulting to "additive".  The attrs-generated
constructor performs no validation of `delta_type`. -/
structure LinearScaling where
  variable_ : Variable
  delta_type : String := "additive"
deriving DecidableEq

/-- Error message of the final `else` branch of `apply_on_window`. -/
def deltaTypeErrorMsg : String :=
  "self.delta_type needs to be one of [\"additive\", \"multiplicative\"]."

/-- Embedding of `LinearScaling.apply_on_window` from notebook 04:
additive, `cm_future - (np.mean(cm_hist) - np.mean(obs))`; multiplicative,
`cm_future * (np.mean(obs) / np.mean(cm_hist))`; otherwise a raised
`ValueError`, modelled as `Except.error`. -/
def LinearScaling.apply_on_window (self : LinearScaling)
    (obs cm_hist cm_future : List ℚ) : Except String (List ℚ) :=
  if self.delta_type = "additive" then
    .ok (cm_future.map (fun x => x - (mean cm_hist - mean obs)))
  else if self.delta_type = "multiplicative" then
    .ok (cm_future.map (fun x => x * (mean obs / mean cm_hist)))
  else
    .error deltaTypeErrorMsg

/-- Claim C1: for the additive `LinearScaling.apply_on_window`, the inputs
obs=[1,1,1], cm_hist=[2,2,2], cm_future=[5,5,5] produce [4,4,4], and in
general the additive result is cm_future minus (mean cm_hist − mean obs),
elementwise. -/
theorem linearScaling_additive_formula (m : LinearScaling)
    (obs cm_hist cm_future : List ℚ) (h : m.delta_type = "additive") :
    (LinearScaling.apply_on_window ⟨Variable.tas, "additive"⟩
        [1, 1, 1] [2, 2, 2] [5, 5, 5] = .ok [4, 4, 4]) ∧
    m.apply_on_window obs cm_hist cm_future =
      .ok (cm_future.map (fun x => x - (mean cm_hist - mean obs))) := by
  constructor
  · simp [LinearScaling.apply_on_window, mean]
    norm_num
  · simp [LinearScaling.apply_on_window, h]

/-- Witness for C1: the general additive formula evaluated at the concrete
scenario of the claim. -/
theorem linearScaling_additive_formula_witness :
    LinearScaling.apply_on_window ⟨Variable.tas, "additive"⟩
        [1, 1, 1] [2, 2, 2] [5, 5, 5] =
      .ok ([5, 5, 5].map (fun x => x - (mean [2, 2, 2] - mean [1, 1, 1]))) :=
  (linearScaling_additive_formula ⟨Variable.tas, "additive"⟩
    [1, 1, 1] [2, 2, 2] [5, 5, 5] rfl).2

/-- Claim C2 counterexample: constructing a `LinearScaling` with the invalid
delta_type "quadratic" succeeds — the attrs-generated constructor of the
class as defined performs no validation, so a method instance carrying the
invalid value is produced, contradicting "fails at construction time". -/
theorem linearScaling_invalid_construction_succeeds :
    (LinearScaling.mk Variable.tas "quadratic").delta_type = "quadratic" ∧
    "quadratic" ≠ "additive" ∧ "quadratic" ≠ "multiplicative" := by
  refine ⟨rfl, ?_, ?_⟩ <;> decide

/-- Claim C2 (amended): construction with an invalid delta_type succeeds and
carries the invalid value; the value is rejected only when
`apply_on_window` runs, which raises a ValueError at processing time. -/
theorem linearScaling_invalid_rejected_at_apply (v : Variable) (s : String)
    (h1 : s ≠ "additive") (h2 : s ≠ "multiplicative")
    (obs cm_hist cm_future : List ℚ) :
    (LinearScaling.mk v s).delta_type = s ∧
    (LinearScaling.mk v s).apply_on_window obs cm_hist cm_future =
      .error deltaTypeErrorMsg := by
  refine ⟨rfl, ?_⟩
  simp [LinearScaling.apply_on_window, h1, h2]

/-- Witness for the amended C2: the "quadratic" instance is built and its
`apply_on_window` raises. -/
theorem linearScaling_invalid_rejected_at_apply_witness :
    (LinearScaling.mk Variable.tas "quadratic").delta_type = "quadratic" ∧
    (LinearScaling.mk Variable.tas "quadratic").apply_on_window [] [] [] =
      .error deltaTypeErrorMsg :=
  linearScaling_invalid_rejected_at_apply Variable.tas "quadratic"
    (by decide) (by decide) [] [] []

/-- Claim C5: for every input triple and every valid delta_type, the series
returned by `apply_on_window` has exactly the length of `cm_future`. -/
theorem apply_on_window_length (m : LinearScaling)
    (obs cm_hist cm_future : List ℚ)
    (h : m.delta_type = "additive" ∨ m.delta_type = "multiplicative") :
    ∃ out, m.apply_on_window obs cm_hist cm_future = .ok out ∧
      out.length = cm_future.length := by
  rcases h with h | h
  · exact ⟨cm_future.map (fun x => x - (mean cm_hist - mean obs)),
      by simp [LinearScaling.apply_on_window, h], by simp⟩
  · exact ⟨cm_future.map (fun x => x * (mean obs / mean cm_hist)),
      by simp [LinearScaling.apply_on_window, h], by simp⟩

/-- Witness for C5 at a concrete multiplicative instance. -/
theorem apply_on_window_length_witness :
    ∃ out,
      (LinearScaling.mk Variable.pr "multiplicative").apply_on_window
          [1, 2] [3, 4] [5, 6, 7] = .ok out ∧
      out.length = ([5, 6, 7] : List ℚ).length :=
  apply_on_window_length (LinearScaling.mk Variable.pr "multiplicative")
    [1, 2] [3, 4] [5, 6, 7] (Or.inr rfl)

/-- One invocation of the debiaser at a window: the result paired with the
method as it stands after the call (the Python method reads `self` and
mutates nothing). -/
def applyCall (m : LinearScaling) (obs cm_hist cm_future : List ℚ) :
    Except String (List ℚ) × LinearScaling :=
  (m.apply_on_window obs cm_hist cm_future, m)

/-- Claim C6: invoking `apply_on_window` twice on identical inputs yields
identical outputs, and the method's configuration (delta_type and variable)
is unchanged by the first call. -/
theorem apply_on_window_idempotent (m : LinearScaling)
    (obs cm_hist cm_future : List ℚ) :
    (applyCall (applyCall m obs cm_hist cm_future).2 obs cm_hist cm_future).1 =
      (applyCall m obs cm_hist cm_future).1 ∧
    (applyCall m obs cm_hist cm_future).2.delta_type = m.delta_type ∧
    (applyCall m obs cm_hist cm_future).2.variable_ = m.variable_ :=
  ⟨rfl, rfl, rfl⟩

/-- Claim C9: in the multiplicative branch the result is
cm_future * (mean obs / mean cm_hist); the division is unguarded (the ok
branch is taken with no zero test on mean cm_hist, e.g. an all-zero
historical series makes the divisor zero), and whenever
delta_type = "multiplicative" the raising branch is unreachable. -/
theorem apply_on_window_multiplicative_unguarded (m : LinearScaling)
    (obs cm_hist cm_future : List ℚ) (h : m.delta_type = "multiplicative") :
    (m.apply_on_window obs cm_hist cm_future =
      .ok (cm_future.map (fun x => x * (mean obs / mean cm_hist)))) ∧
    (∀ e, m.apply_on_window obs cm_hist cm_future ≠ .error e) ∧
    (cm_hist = List.replicate cm_hist.length 0 → mean cm_hist = 0) := by
  refine ⟨?_, ?_, ?_⟩
  · simp [LinearScaling.apply_on_window, h]
  · intro e
    simp [LinearScaling.apply_on_window, h]
  · intro hz
    rw [mean, hz]
    simp

/-- Witness for C9: the multiplicative method on an all-zero historical
series still returns ok (division unguarded), with divisor mean 0. -/
theorem apply_on_window_multiplicative_unguarded_witness :
    ((LinearScaling.mk Variable.pr "multiplicative").apply_on_window
        [1, 2] [0, 0] [5, 6] =
      .ok ([5, 6].map (fun x => x * (mean [1, 2] / mean [0, 0])))) ∧
    (∀ e, (LinearScaling.mk Variable.pr "multiplicative").apply_on_window
        [1, 2] [0, 0] [5, 6] ≠ .error e) ∧
    (([0, 0] : List ℚ) = List.replicate ([0, 0] : List ℚ).length 0 →
      mean [0, 0] = 0) :=
  apply_on_window_multiplicative_unguarded
    (LinearScaling.mk Variable.pr "multiplicative") [1, 2] [0, 0] [5, 6] rfl

/-- Claim C10: when mean obs = mean cm_hist, the additive `apply_on_window`
returns cm_future unchanged (the correction term vanishes). -/
theorem apply_on_window_additive_identity (m : LinearScaling)
    (obs cm_hist cm_future : List ℚ) (h : m.delta_type = "additive")
    (hm : mean obs = mean cm_hist) :
    m.apply_on_window obs cm_hist cm_future = .ok cm_future := by
  simp [LinearScaling.apply_on_window, h, hm, List.map_id]

/-- Witness for C10: obs and cm_hist with equal means leave cm_future
untouched. -/
theorem apply_on_window_additive_identity_witness :
    mean [1, 3] = mean [2, 2] ∧
    (LinearScaling.mk Variable.tas "additive").apply_on_window
        [1, 3] [2, 2] [7, 8, 9] = .ok [7, 8, 9] := by
  have hm : mean [1, 3] = mean ([2, 2] : List ℚ) := by
    rw [mean, mean]
    norm_num
  exact ⟨hm, apply_on_window_additive_identity
    (LinearScaling.mk Variable.tas "additive") [1, 3] [2, 2] [7, 8, 9] rfl hm⟩

/-- Lookup of a variable in a settings table, mirroring the Python dict
lookups keyed by `Variable` objects in notebook 04. -/
def lookupVar (v : Variable) : List (Variable × String) → Option String
  | [] => none
  | (k, d) :: rest => if k = v then some d else lookupVar v rest

/-- The vetted `default_settings` table of notebook 04:
tas ↦ additive, pr ↦ multiplicative (only the delta_type field occurs). -/
def default_settings : List (Variable × String) :=
  [(Variable.tas, "additive"), (Variable.pr, "multiplicative")]

/-- The `experimental_default_settings` table of notebook 04:
hurs ↦ multiplicative, psl ↦ additive. -/
def experimental_default_settings : List (Variable × String) :=
  [(Variable.hurs, "multiplicative"), (Variable.psl, "additive")]

/-- The experimental-defaults advisory emitted for psl in notebook 04. -/
def experimentalWarning : String :=
  "The default settings for this variable are currently still experimental and may not have been evaluated in the peer-reviewed literature."

/-- Modelled from the spec: `Debiaser._from_variable`, the
Default-Resolution Helper of spec §4.1, is ibicus library code absent from
the sources (only its caller `LinearScaling.from_variable` appears in
notebook 04).  Per the spec: an identifier resolving in the vetted table
yields its defaults with no warning; one resolving only in the experimental
table yields its defaults together with exactly one non-fatal warning;
an unresolvable identifier is a fatal `ConfigurationError`; a
caller-supplied keyword override replaces the resolved default field by
field.  The returned pair is the configured method and the list of warnings
emitted by the call. -/
def fromVariableModel (v : Variable)
    (defaults experimental : List (Variable × String))
    (override : Option String) :
    Except String (LinearScaling × List String) :=
  match lookupVar v defaults with
  | some d => .ok (⟨v, override.getD d⟩, [])
  | none =>
    match lookupVar v experimental with
    | some d => .ok (⟨v, override.getD d⟩, [experimentalWarning])
    | none => .error "ConfigurationError"

/-- Embedding of the settings-table `LinearScaling.from_variable` of
notebook 04, which delegates to `cls._from_variable` with the two tables
above. -/
def LinearScaling.from_variable (v : Variable) (override : Option String) :
    Except String (LinearScaling × List String) :=
  fromVariableModel v default_settings experimental_default_settings override

/-- Claim C3: for every identifier resolvable in the settings tables and
every caller-supplied override, the configured method carries the override
value in place of the resolved default. -/
theorem from_variable_override_wins (defaults experimental : List (Variable × String))
    (v : Variable) (o : String)
    (hres : lookupVar v defaults ≠ none ∨ lookupVar v experimental ≠ none) :
    ∃ m w, fromVariableModel v defaults experimental (some o) = .ok (m, w) ∧
      m.delta_type = o := by
  unfold fromVariableModel
  cases hd : lookupVar v defaults with
  | some d => exact ⟨⟨v, o⟩, [], rfl, rfl⟩
  | none =>
    cases he : lookupVar v experimental with
    | some d => exact ⟨⟨v, o⟩, [experimentalWarning], rfl, rfl⟩
    | none =>
      rcases hres with hres | hres
      · exact absurd hd hres
      · exact absurd he hres

/-- Witness for C3: resolving tas (default additive) with override
"multiplicative" yields a method carrying "multiplicative". -/
theorem from_variable_override_wins_witness :
    ∃ m w,
      fromVariableModel Variable.tas default_settings
          experimental_default_settings (some "multiplicative") =
        .ok (m, w) ∧
      m.delta_type = "multiplicative" :=
  from_variable_override_wins default_settings experimental_default_settings
    Variable.tas "multiplicative" (Or.inl (by decide))

/-- Claim C4: an identifier present in the vetted table resolves with no
warning; one present only in the experimental table resolves with exactly
one experimental-defaults warning and still yields a configured method. -/
theorem from_variable_warning_discipline
    (defaults experimental : List (Variable × String)) (v : Variable) :
    (∀ d, lookupVar v defaults = some d →
      fromVariableModel v defaults experimental none = .ok (⟨v, d⟩, [])) ∧
    (lookupVar v defaults = none → ∀ d, lookupVar v experimental = some d →
      fromVariableModel v defaults experimental none =
        .ok (⟨v, d⟩, [experimentalWarning])) := by
  constructor
  · intro d hd
    unfold fromVariableModel
    rw [hd]
    rfl
  · intro hnone d hd
    unfold fromVariableModel
    rw [hnone, hd]
    rfl

/-- Witness for C4: tas (vetted) resolves silently; psl (experimental only)
resolves with exactly one warning and a configured method. -/
theorem from_variable_warning_discipline_witness :
    fromVariableModel Variable.tas default_settings
        experimental_default_settings none =
      .ok (⟨Variable.tas, "additive"⟩, []) ∧
    fromVariableModel Variable.psl default_settings
        experimental_default_settings none =
      .ok (⟨Variable.psl, "additive"⟩, [experimentalWarning]) :=
  ⟨(from_variable_warning_discipline default_settings
      experimental_default_settings Variable.tas).1 "additive" rfl,
   (from_variable_warning_discipline default_settings
      experimental_default_settings Variable.psl).2 rfl "additive" rfl⟩

/-- A 3-D ClimateField triple flattened over its spatial grid: one entry
per location, holding that location's (obs, cm_hist, cm_future) time
series.  Matching spatial extents of the three fields are captured by
zipping them into one list. -/
def LocationInputs : Type := List (List ℚ × List ℚ × List ℚ)

/-- Modelled from the spec: the sequential mode of the Orchestrator
(`Debiaser.apply`, spec §4.4), which is ibicus library code absent from the
sources (the notebooks only call it).  It iterates the configured
per-location strategy over all spatial locations in order and assembles the
outputs into the ResultField. -/
def applySeq (f : List ℚ → List ℚ → List ℚ → List ℚ)
    (inputs : LocationInputs) : List (List ℚ) :=
  inputs.map (fun t => f t.1 t.2.1 t.2.2)

/-- The strategy applied at spatial index j (empty series for an index out
of the grid). -/
def applyAt (f : List ℚ → List ℚ → List ℚ → List ℚ)
    (inputs : LocationInputs) (j : ℕ) : List ℚ :=
  match inputs.get? j with
  | some t => f t.1 t.2.1 t.2.2
  | none => []

/-- Modelled from the spec: the parallel mode of the Orchestrator (spec
§4.4/§5), absent from the sources.  Worker processes complete the
per-location units in an arbitrary order, producing a completion list of
(spatial index, output) pairs; the orchestrating process then assembles the
ResultField keyed by spatial index, not by completion order. -/
def applyPar (f : List ℚ → List ℚ → List ℚ → List ℚ)
    (order : List ℕ) (inputs : LocationInputs) : List (List ℚ) :=
  (List.range inputs.length).map
    (fun j =>
      (List.lookup j (order.map (fun i => (i, applyAt f inputs i)))).getD [])

/-- Looking up a key in a completion list built over the completion order
returns that key's own output whenever the key was completed. -/
theorem lookup_completion {α : Type} (g : ℕ → α) :
    ∀ (order : List ℕ) (j : ℕ), j ∈ order →
      List.lookup j (order.map (fun i => (i, g i))) = some (g j) := by
  intro order
  induction order with
  | nil => intro j hj; cases hj
  | cons i rest ih =>
    intro j hj
    by_cases hji : j = i
    · subst hji
      simp [List.lookup]
    · have hjr : j ∈ rest := by
        cases hj with
        | head => exact absurd rfl hji
        | tail _ h => exact h
      simp only [List.map_cons, List.lookup]
      have hbe : (j == i) = false := by simpa using hji
      rw [hbe]
      exact ih j hjr

/-- Mapping the per-index strategy over the index range of the grid is the
sequential orchestrator. -/
theorem map_range_applyAt (f : List ℚ → List ℚ → List ℚ → List ℚ) :
    ∀ inputs : LocationInputs,
      (List.range inputs.length).map (applyAt f inputs) = applySeq f inputs := by
  intro inputs
  induction inputs with
  | nil => rfl
  | cons t ts ih =>
    show (List.range (ts.length + 1)).map (applyAt f (t :: ts)) = _
    rw [List.range_succ_eq_map, List.map_cons, List.map_map]
    have h1 : applyAt f (t :: ts) ∘ Nat.succ = applyAt f ts := rfl
    have h2 : applyAt f (t :: ts) 0 = f t.1 t.2.1 t.2.2 := rfl
    rw [h1, h2, ih]
    rfl

/-- Claim C7: for any completion order that is a permutation of the spatial
index range, the parallel Orchestrator produces exactly the sequential
ResultField, every output location mapped to its source spatial index. -/
theorem orchestrator_parallel_equiv
    (f : List ℚ → List ℚ → List ℚ → List ℚ)
    (order : List ℕ) (inputs : LocationInputs)
    (hperm : order.Perm (List.range inputs.length)) :
    applyPar f order inputs = applySeq f inputs := by
  rw [← map_range_applyAt f inputs]
  unfold applyPar
  apply List.map_congr_left
  intro j hj
  have hjo : j ∈ order := hperm.mem_iff.mpr hj
  rw [lookup_completion (applyAt f inputs) order j hjo]
  rfl

/-- Witness for C7: a two-location grid processed in reversed completion
order assembles to the sequential result. -/
theorem orchestrator_parallel_equiv_witness :
    applyPar (fun _ _ cf => cf) [1, 0]
        ([([1], [2], [3]), ([4], [5], [6])] : LocationInputs) =
      applySeq (fun _ _ cf => cf)
        ([([1], [2], [3]), ([4], [5], [6])] : LocationInputs) :=
  orchestrator_parallel_equiv (fun _ _ cf => cf) [1, 0]
    ([([1], [2], [3]), ([4], [5], [6])] : LocationInputs) (by decide)

/-- The four arrays held by the data-preparation notebook after loading
and regridding: ERA5 observations, NCEP/DOE II observations, and the
historical and future climate-model fields (flattened to one dimension). -/
structure ClimateData where
  obs_era5 : List ℚ
  obs_ncep_doe : List ℚ
  cm_hist : List ℚ
  cm_future : List ℚ

/-- Embedding of the unit-conversion cell `obs_era5 = obs_era5/86400` of
the data-preparation notebook: only the ERA5 observation field is rescaled,
elementwise, by the constant divisor 86400. -/
def convertUnits (s : ClimateData) : ClimateData :=
  { s with obs_era5 := s.obs_era5.map (fun x => x / 86400) }

/-- Claim C8: the unit conversion divides every element of the ERA5
observation field by 86400 and leaves the NCEP/DOE observations and both
climate-model fields untouched. -/
theorem era5_unit_conversion (s : ClimateData) :
    (convertUnits s).obs_era5 = s.obs_era5.map (fun x => x / 86400) ∧
    (∀ i : ℕ, (convertUnits s).obs_era5[i]? =
      (s.obs_era5[i]?).map (fun x => x / 86400)) ∧
    (convertUnits s).obs_ncep_doe = s.obs_ncep_doe ∧
    (convertUnits s).cm_hist = s.cm_hist ∧
    (convertUnits s).cm_future = s.cm_future := by
  refine ⟨rfl, ?_, rfl, rfl, rfl⟩
  intro i
  simp [convertUnits, List.getElem?_map]
